import Mathlib

/-!
# Verification model of the CS144 simple router (sr_router.c)

Shallow embedding of the packet pipeline of sr_router.c.  Conventions:

* The router runs on a little-endian host (x86), so ntohl / htonl / ntohs /
  htons are 32-bit / 16-bit byte swaps.
* Multi-byte header fields in the structures below hold the value of the C
  integer AS STORED on the little-endian host.  Serializing a field to its
  little-endian memory bytes therefore reproduces the wire bytes exactly.
* Received IP datagrams are lists of byte values (Nat, each below 256); the
  C struct field reads become positional accessors on the list.
* The functions sr_arpcache_lookup / sr_arpcache_insert / sr_arpcache_queuereq
  (sr_arpcache.c), sr_get_rt (sr_rt.c), sr_get_interface (sr_if.c) and cksum
  (sr_utils.c) are not part of the provided source; they are modelled from the
  specification, as marked on each definition.
* The C code leaves the unused / next_mtu word of a constructed ICMP type 3
  header unwritten (malloc residue); a `Residue` parameter makes that explicit.
* In-place mutation of the received buffer (TTL decrement, checksum zeroing
  and restoring) is modelled by functional updates of the byte list.
-/

/-- Six-byte Ethernet address. -/
abbrev Mac := List Nat

/-- Byte swap of a 16-bit value (ntohs / htons on a little-endian host). -/
def bswap16 (v : Nat) : Nat := v % 256 * 256 + v / 256 % 256

/-- Byte swap of a 32-bit value (ntohl / htonl on a little-endian host). -/
def bswap32 (v : Nat) : Nat :=
  v % 256 * 16777216 + v / 256 % 256 * 65536 + v / 65536 % 256 * 256 + v / 16777216 % 256

/-- ntohs on the little-endian target host. -/
def ntohs (v : Nat) : Nat := bswap16 v

/-- htons on the little-endian target host. -/
def htons (v : Nat) : Nat := bswap16 v

/-- ntohl on the little-endian target host. -/
def ntohl (v : Nat) : Nat := bswap32 v

/-- htonl on the little-endian target host. -/
def htonl (v : Nat) : Nat := bswap32 v

/-- Stored (little-endian) 32-bit value of the IPv4 address with network-order
bytes a.b.c.d, as held in an in_addr / uint32_t of the C code. -/
def ipv4 (a b c d : Nat) : Nat := a + 256 * b + 65536 * c + 16777216 * d

/-- Big-endian 16-bit word sum of a byte list, as the loop of cksum in
sr_utils.c accumulates it (an odd trailing byte is padded with zero). -/
def sumBE : List Nat → Nat
  | [] => 0
  | [a] => a * 256
  | a :: b :: rest => a * 256 + b + sumBE rest

/-- Fuelled end-around-carry folding loop of cksum. -/
def foldCarryGo : Nat → Nat → Nat
  | 0, s => s
  | f + 1, s => if s < 65536 then s else foldCarryGo f (s / 65536 + s % 65536)

/-- End-around carry: repeat s := s / 65536 + s % 65536 until below 65536.
The fuel s is always sufficient since each step strictly decreases s. -/
def foldCarry (s : Nat) : Nat := foldCarryGo s s

/-- Modelled from the spec (sr_utils.c cksum is not in the provided source):
16-bit one-s-complement Internet checksum of a byte list; the result is the
uint16_t the C function returns, i.e. already passed through htons. -/
def cksum (bs : List Nat) : Nat := bswap16 (65535 - foldCarry (sumBE bs))

/-- Little-endian memory bytes of a stored 16-bit value. -/
def le16 (v : Nat) : List Nat := [v % 256, v / 256 % 256]

/-- Little-endian memory bytes of a stored 32-bit value. -/
def le32 (v : Nat) : List Nat :=
  [v % 256, v / 256 % 256, v / 65536 % 256, v / 16777216 % 256]

/-- Stored 16-bit value at byte offset i of a buffer. -/
def getU16 (l : List Nat) (i : Nat) : Nat := l.getD i 0 + 256 * l.getD (i + 1) 0

/-- Stored 32-bit value at byte offset i of a buffer. -/
def getU32 (l : List Nat) (i : Nat) : Nat :=
  l.getD i 0 + 256 * l.getD (i + 1) 0 + 65536 * l.getD (i + 2) 0
    + 16777216 * l.getD (i + 3) 0

/-- Write a stored 16-bit value at byte offset i of a buffer. -/
def setU16 (l : List Nat) (i v : Nat) : List Nat :=
  (l.set i (v % 256)).set (i + 1) (v / 256 % 256)

/-- Interface entry (struct sr_if): name, MAC, IP in network byte order. -/
structure sr_if where
  name : String
  addr : Mac
  ip : Nat
  deriving DecidableEq, Repr

/-- Routing table entry (struct sr_rt): all addresses in network byte order,
the list order is registration order. -/
structure sr_rt where
  dest : Nat
  gw : Nat
  mask : Nat
  interface : String
  deriving DecidableEq, Repr

/-- ARP header (sr_arp_hdr_t); multi-byte fields hold stored values. -/
structure ArpHdr where
  ar_hrd : Nat
  ar_pro : Nat
  ar_hln : Nat
  ar_pln : Nat
  ar_op : Nat
  ar_sha : Mac
  ar_sip : Nat
  ar_tha : Mac
  ar_tip : Nat
  deriving DecidableEq, Repr

/-- IPv4 header (sr_ip_hdr_t); multi-byte fields hold stored values. -/
structure IpHdr where
  ip_v : Nat
  ip_hl : Nat
  ip_tos : Nat
  ip_len : Nat
  ip_id : Nat
  ip_off : Nat
  ip_ttl : Nat
  ip_p : Nat
  ip_sum : Nat
  ip_src : Nat
  ip_dst : Nat
  deriving DecidableEq, Repr

/-- ICMP type 3 header (sr_icmp_t3_hdr_t) with its 28 data bytes. -/
structure IcmpT3 where
  icmp_type : Nat
  icmp_code : Nat
  icmp_sum : Nat
  unused : Nat
  next_mtu : Nat
  data : List Nat
  deriving DecidableEq, Repr

/-- Payload of an emitted Ethernet frame. -/
inductive EthPayload where
  | arp (h : ArpHdr)
  | ip (bytes : List Nat)
  deriving DecidableEq, Repr

/-- Emitted Ethernet frame (sr_ethernet_hdr_t plus payload). -/
structure EthFrame where
  ether_dhost : Mac
  ether_shost : Mac
  ether_type : Nat
  payload : EthPayload
  deriving DecidableEq, Repr

/-- One sr_send_packet call: the frame, the byte length passed, the
interface name. -/
structure Emission where
  frame : EthFrame
  len : Nat
  iface : String
  deriving DecidableEq, Repr

/-- Resolved ARP cache entry; ip is in host byte order as inserted. -/
structure ArpEntry where
  ip : Nat
  mac : Mac
  deriving DecidableEq, Repr

/-- A frame queued behind an unresolved ARP request (struct sr_packet).
The destination MAC is not yet meaningful and is overwritten on resolution,
so it is not stored. -/
structure QueuedPacket where
  shost : Mac
  ether_type : Nat
  payload : List Nat
  len : Nat
  iface : String
  deriving DecidableEq, Repr

/-- Outstanding ARP request (struct sr_arpreq); ip is in host byte order. -/
structure ArpReq where
  ip : Nat
  times_sent : Nat
  packets : List QueuedPacket
  requestedInterface : String
  deriving DecidableEq, Repr

/-- Mutable router state threaded through the pipeline: the static
ipIdentifyNumber counter, the ARP cache and the pending ARP requests. -/
structure RouterState where
  ipIdentifyNumber : Nat
  cache : List ArpEntry
  requests : List ArpReq
  deriving DecidableEq, Repr

/-- Contents a freshly malloc-ed ICMP type 3 reply buffer happens to hold in
the unused and next_mtu words, which the C code never writes. -/
structure Residue where
  unused : Nat
  next_mtu : Nat
  deriving DecidableEq, Repr

/-- ip_v field of a received IP packet (high nibble of byte 0). -/
def ipV (l : List Nat) : Nat := l.getD 0 0 / 16

/-- ip_hl field of a received IP packet (low nibble of byte 0). -/
def ipHl (l : List Nat) : Nat := l.getD 0 0 % 16

/-- ip_ttl field of a received IP packet. -/
def ipTtl (l : List Nat) : Nat := l.getD 8 0

/-- ip_p field of a received IP packet. -/
def ipP (l : List Nat) : Nat := l.getD 9 0

/-- ip_sum field (stored value) of a received IP packet. -/
def ipSum (l : List Nat) : Nat := getU16 l 10

/-- ip_src field (stored value) of a received IP packet. -/
def ipSrc (l : List Nat) : Nat := getU32 l 12

/-- ip_dst field (stored value) of a received IP packet. -/
def ipDst (l : List Nat) : Nat := getU32 l 16

/-- Little-endian memory bytes of an IP header; identical to the wire bytes. -/
def serializeIpHdr (h : IpHdr) : List Nat :=
  [h.ip_hl + 16 * h.ip_v, h.ip_tos] ++ le16 h.ip_len ++ le16 h.ip_id
    ++ le16 h.ip_off ++ [h.ip_ttl, h.ip_p] ++ le16 h.ip_sum
    ++ le32 h.ip_src ++ le32 h.ip_dst

/-- Memory bytes of an ICMP type 3 header together with its data bytes. -/
def serializeIcmpT3 (t : IcmpT3) : List Nat :=
  [t.icmp_type, t.icmp_code] ++ le16 t.icmp_sum ++ le16 t.unused
    ++ le16 t.next_mtu ++ t.data

/-- Compute and store the IP header checksum over the serialized header, as
the C code does after zeroing ip_sum (call sites pass ip_sum = 0). -/
def finalizeIpHdr (h : IpHdr) : IpHdr := {h with ip_sum := cksum (serializeIpHdr h)}

/-- Compute and store the ICMP checksum over the serialized type 3 message,
as the C code does after zeroing icmp_sum (call sites pass icmp_sum = 0). -/
def finalizeIcmpT3 (t : IcmpT3) : IcmpT3 :=
  {t with icmp_sum := cksum (serializeIcmpT3 t)}

/-- The broadcast Ethernet address constant of sr_router.c. -/
def broadcastEthernetAddress : Mac := [255, 255, 255, 255, 255, 255]

/-- All-zero hardware address used in the target field of an ARP request. -/
def zeroMac : Mac := [0, 0, 0, 0, 0, 0]

/-- Modelled from the spec (sr_if.c is not in the provided source):
lookup_interface(name), exact name match over the interface list. -/
def sr_get_interface (ifl : List sr_if) (name : String) : Option sr_if :=
  ifl.find? (fun i => i.name == name)

/-- Modelled from the spec (sr_rt.c is not in the provided source): the
routing-table entry for a given interface name; the router iterates the
table in registration order, so the first entry with that name is returned. -/
def sr_get_rt (rt : List sr_rt) (name : String) : Option sr_rt :=
  rt.find? (fun r => r.interface == name)

/-- Modelled from the spec, section 4.3 (sr_arpcache.c is not in the provided
source): lookup(ip) returns the MAC of an entry for ip, if any. -/
def sr_arpcache_lookup (cache : List ArpEntry) (ip : Nat) : Option Mac :=
  (cache.find? (fun e => e.ip == ip)).map ArpEntry.mac

/-- Modelled from the spec, section 4.3 (sr_arpcache.c is not in the provided
source): insert(ip, mac) installs or refreshes the cache entry; when an ARP
request for ip exists it is detached from the request list and returned. -/
def sr_arpcache_insert (st : RouterState) (mac : Mac) (ip : Nat) :
    RouterState × Option ArpReq :=
  let cache := ArpEntry.mk ip mac :: st.cache.filter (fun e => e.ip != ip)
  match st.requests.find? (fun r => r.ip == ip) with
  | some req =>
    ({st with cache := cache, requests := st.requests.filter (fun r => r.ip != ip)},
     some req)
  | none => ({st with cache := cache}, none)

/-- Modelled from the spec, section 4.3 (sr_arpcache.c is not in the provided
source): queue(ip, frame) appends the frame to the request for ip, creating
the request with zero send count if none exists, and returns the request. -/
def sr_arpcache_queuereq (requests : List ArpReq) (ip : Nat) (qp : QueuedPacket) :
    List ArpReq × ArpReq :=
  match requests.find? (fun r => r.ip == ip) with
  | some req =>
    let req2 := {req with packets := req.packets ++ [qp]}
    (requests.map (fun r => if r.ip = ip then req2 else r), req2)
  | none =>
    let req2 : ArpReq := ⟨ip, 0, [qp], ""⟩
    (requests ++ [req2], req2)

/-- networkGetMaskLength bit scan: counts set bits from bit (n-1) downwards,
stopping at the first clear bit. -/
def scanLeadingOnes : Nat → Nat → Nat
  | 0, _ => 0
  | n + 1, m => if m / 2 ^ n % 2 = 1 then scanLeadingOnes n m + 1 else 0

/-- networkGetMaskLength of sr_router.c: number of contiguous high bits set
in the 32-bit value it is given.  The caller passes mask.s_addr without any
byte-order conversion. -/
def networkGetMaskLength (mask : Nat) : Nat := scanLeadingOnes 32 mask

/-- Loop of networkGetPacketRoute: keeps the current best route and its mask
length (initially -1), replacing it when a route with a strictly longer mask
also matches the masked destination. -/
def routeFoldLoop (dstHost : Nat) : List sr_rt → Option sr_rt → Int → Option sr_rt
  | [], ret, _ => ret
  | r :: rest, ret, best =>
    if (networkGetMaskLength r.mask : Int) > best then
      if dstHost &&& r.mask = ntohl r.dest &&& r.mask then
        routeFoldLoop dstHost rest (some r) (networkGetMaskLength r.mask)
      else routeFoldLoop dstHost rest ret best
    else routeFoldLoop dstHost rest ret best

/-- networkGetPacketRoute of sr_router.c, applied to the stored ip_dst value
of the packet being routed.  Note that the mask length and the masking are
computed on the raw network-byte-order mask.s_addr, while both addresses are
passed through ntohl. -/
def networkGetPacketRoute (rt : List sr_rt) (ip_dst : Nat) : Option sr_rt :=
  routeFoldLoop (ntohl ip_dst) rt none (-1)

/-- Loop of the route selection as the specification words it: mask length
and masking in host byte order. -/
def routeSpecLoop (dstHost : Nat) : List sr_rt → Option sr_rt → Int → Option sr_rt
  | [], ret, _ => ret
  | r :: rest, ret, best =>
    if (networkGetMaskLength (ntohl r.mask) : Int) > best then
      if dstHost &&& ntohl r.mask = ntohl r.dest &&& ntohl r.mask then
        routeSpecLoop dstHost rest (some r) (networkGetMaskLength (ntohl r.mask))
      else routeSpecLoop dstHost rest ret best
    else routeSpecLoop dstHost rest ret best

/-- Route selection as the claim states it: the route with the greatest count
of contiguous high bits of the mask AFTER converting it to host byte order,
among routes whose masked destination (in host byte order) equals the masked
destination IP, ties broken by first in registration order. -/
def routeSpecLpm (rt : List sr_rt) (ip_dst : Nat) : Option sr_rt :=
  routeSpecLoop (ntohl ip_dst) rt none (-1)

/-- networkIpDesinationIsUs of sr_router.c (source spelling kept): does the
packet destination IP equal the IP of any of our interfaces. -/
def networkIpDesinationIsUs (ifl : List sr_if) (bytes : List Nat) : Bool :=
  ifl.any (fun i => ipDst bytes == i.ip)

/-- networkIpSourceIsUs of sr_router.c: does the packet source IP equal the
IP of any of our interfaces. -/
def networkIpSourceIsUs (ifl : List sr_if) (bytes : List Nat) : Bool :=
  ifl.any (fun i => ipSrc bytes == i.ip)

/-- LinkSendArpRequest of sr_router.c as the frame it emits: broadcast ARP
request for requestIp (host order) out of the requesting interface. -/
def LinkSendArpRequest (iface : sr_if) (requestIp : Nat) : Emission :=
  ⟨⟨broadcastEthernetAddress, iface.addr, htons 2054,
    EthPayload.arp ⟨htons 1, htons 2048, 6, 4, htons 1, iface.addr, iface.ip,
      zeroMac, htonl requestIp⟩⟩, 42, iface.name⟩

/-- linkArpAndSendPacket of sr_router.c: resolve the next hop as the gateway
of the routing entry for the egress interface NAME (sr_get_rt), look it up in
the ARP cache, and either transmit the frame or queue it behind an ARP
request, broadcasting the request when it is new.  A missing routing entry
for the name would make the C code dereference NULL; that case is modelled
as no action and is excluded by hypotheses. -/
def linkArpAndSendPacket (rt : List sr_rt) (st : RouterState) (ipPayload : List Nat)
    (len : Nat) (iface : sr_if) : RouterState × List Emission :=
  match sr_get_rt rt iface.name with
  | none => (st, [])
  | some rte =>
    let nextHopIpAddress := ntohl rte.gw
    match sr_arpcache_lookup st.cache nextHopIpAddress with
    | some mac =>
      (st, [⟨⟨mac, iface.addr, htons 2048, EthPayload.ip ipPayload⟩, len, iface.name⟩])
    | none =>
      let qp : QueuedPacket := ⟨iface.addr, htons 2048, ipPayload, len, iface.name⟩
      let pair := sr_arpcache_queuereq st.requests nextHopIpAddress qp
      if pair.2.times_sent = 0 then
        ({st with requests := pair.1.map (fun r =>
            if r.ip = nextHopIpAddress then
              {r with times_sent := 1, requestedInterface := iface.name}
            else r)},
         [LinkSendArpRequest iface nextHopIpAddress])
      else ({st with requests := pair.1}, [])

/-- NetworkSendTypeThreeIcmpPacket of sr_router.c: suppress the message when
the offending datagram source IP is one of our interfaces; otherwise build a
56-byte ICMP destination-unreachable datagram, routed toward the original
source, with the first 28 bytes of the offending datagram quoted.  The
unused and next_mtu words keep the malloc residue.  A failing route or
interface lookup trips an assert in C; modelled as no emission. -/
def NetworkSendTypeThreeIcmpPacket (rt : List sr_rt) (ifl : List sr_if)
    (st : RouterState) (icmpCode : Nat) (orig : List Nat) (res : Residue) :
    RouterState × List Emission :=
  if networkIpSourceIsUs ifl orig then (st, [])
  else
    let hdr0 : IpHdr :=
      { ip_v := 4, ip_hl := 5, ip_tos := 0, ip_len := htons 56,
        ip_id := htons st.ipIdentifyNumber, ip_off := htons 16384, ip_ttl := 64,
        ip_p := 1, ip_sum := 0, ip_src := 0, ip_dst := ipSrc orig }
    let st1 := {st with ipIdentifyNumber := (st.ipIdentifyNumber + 1) % 65536}
    match networkGetPacketRoute rt hdr0.ip_dst with
    | none => (st1, [])
    | some icmpRoute =>
      match sr_get_interface ifl icmpRoute.interface with
      | none => (st1, [])
      | some destIface =>
        let hdr := finalizeIpHdr {hdr0 with ip_src := destIface.ip}
        let icmp := finalizeIcmpT3
          { icmp_type := 3, icmp_code := icmpCode, icmp_sum := 0,
            unused := res.unused, next_mtu := res.next_mtu, data := orig.take 28 }
        linkArpAndSendPacket rt st1 (serializeIpHdr hdr ++ serializeIcmpT3 icmp)
          70 destIface

/-- The IP header networkHandleIcmpPacket builds for an echo reply: the
addresses of the request swapped, total length the received byte count,
default TTL, DF set. -/
def echoReplyHdr (st : RouterState) (bytes : List Nat) : IpHdr :=
  { ip_v := 4, ip_hl := 5, ip_tos := 0, ip_len := htons (bytes.length % 65536),
    ip_id := htons st.ipIdentifyNumber, ip_off := htons 16384, ip_ttl := 64,
    ip_p := 1, ip_sum := 0, ip_src := ipDst bytes, ip_dst := ipSrc bytes }

/-- The IP datagram bytes of the echo reply: the reply header above followed
by the ICMP echo reply, whose bytes after the 4-byte ICMP header are copied
verbatim from the request. -/
def echoReplyBytes (st : RouterState) (bytes : List Nat) : List Nat :=
  serializeIpHdr (finalizeIpHdr (echoReplyHdr st bytes))
  ++ ([0, 0] ++ le16 (cksum ([0, 0, 0, 0] ++ (bytes.drop (4 * ipHl bytes)).drop 4))
      ++ (bytes.drop (4 * ipHl bytes)).drop 4)

/-- networkHandleIcmpPacket of sr_router.c: verify the ICMP checksum over the
whole ICMP message; on an echo request build an echo reply of the received
total length with swapped addresses and the ICMP bytes after the 4-byte
header copied verbatim, and hand it to linkArpAndSendPacket. -/
def networkHandleIcmpPacket (rt : List sr_rt) (st : RouterState)
    (bytes : List Nat) (iface : sr_if) : RouterState × List Emission :=
  let icmpBytes := bytes.drop (4 * ipHl bytes)
  let headerChecksum := getU16 icmpBytes 2
  if headerChecksum ≠ cksum (setU16 icmpBytes 2 0) then (st, [])
  else if icmpBytes.getD 0 0 = 8 then
    linkArpAndSendPacket rt {st with ipIdentifyNumber := (st.ipIdentifyNumber + 1) % 65536}
      (echoReplyBytes st bytes) (bytes.length + 14) iface
  else (st, [])

/-- networkForwardIpPacket of sr_router.c: route by longest prefix match; a
viable route out of a different interface forwards the frame, anything else
produces an ICMP host unreachable.  A missing interface entry for the chosen
route would make the C code pass NULL on; modelled as no action and excluded
by hypotheses. -/
def networkForwardIpPacket (rt : List sr_rt) (ifl : List sr_if) (st : RouterState)
    (bytes : List Nat) (recvIface : sr_if) (res : Residue) :
    RouterState × List Emission :=
  match networkGetPacketRoute rt (ipDst bytes) with
  | some forwardRoute =>
    if forwardRoute.interface ≠ recvIface.name then
      match sr_get_interface ifl forwardRoute.interface with
      | some forwardInterface =>
        linkArpAndSendPacket rt st bytes (bytes.length + 14) forwardInterface
      | none => (st, [])
    else NetworkSendTypeThreeIcmpPacket rt ifl st 1 bytes res
  | none => NetworkSendTypeThreeIcmpPacket rt ifl st 1 bytes res

/-- The body of networkHandleReceivedIpPacket after validation: deliver ICMP
to us, answer anything else to us with port unreachable, and otherwise
decrement the 8-bit TTL; a zero result emits time exceeded with the quoted
datagram restored to TTL 1, a nonzero result recomputes the checksum and
forwards. -/
def ipDispatch (rt : List sr_rt) (ifl : List sr_if) (st : RouterState)
    (bytes : List Nat) (iface : sr_if) (res : Residue) :
    RouterState × List Emission :=
  if networkIpDesinationIsUs ifl bytes then
    if ipP bytes = 1 then networkHandleIcmpPacket rt st bytes iface
    else NetworkSendTypeThreeIcmpPacket rt ifl st 3 bytes res
  else
    let t := (ipTtl bytes + 255) % 256
    let bytes1 := bytes.set 8 t
    if t = 0 then
      let quoted := bytes1.set 8 1
      let replyIpHeader := finalizeIpHdr
        { ip_v := 4, ip_hl := 5, ip_tos := 0, ip_len := htons 56,
          ip_id := htons st.ipIdentifyNumber, ip_off := htons 16384, ip_ttl := 64,
          ip_p := 1, ip_sum := 0, ip_src := iface.ip, ip_dst := ipSrc quoted }
      let replyIcmp := finalizeIcmpT3
        { icmp_type := 11, icmp_code := 0, icmp_sum := 0,
          unused := res.unused, next_mtu := res.next_mtu, data := quoted.take 28 }
      linkArpAndSendPacket rt {st with ipIdentifyNumber := (st.ipIdentifyNumber + 1) % 65536}
        (serializeIpHdr replyIpHeader ++ serializeIcmpT3 replyIcmp) 70 iface
    else
      let zeroed := setU16 bytes1 10 0
      let b2 := setU16 zeroed 10 (cksum (zeroed.take (4 * ipHl zeroed)))
      networkForwardIpPacket rt ifl st b2 iface res

/-- networkHandleReceivedIpPacket of sr_router.c: length and header-length
checks, checksum verification with the field zeroed and then restored in
place, version check, then dispatch. -/
def networkHandleReceivedIpPacket (rt : List sr_rt) (ifl : List sr_if)
    (st : RouterState) (bytes : List Nat) (iface : sr_if) (res : Residue) :
    RouterState × List Emission :=
  if bytes.length < 20 then (st, [])
  else if 5 ≤ ipHl bytes then
    let headerChecksum := ipSum bytes
    let zeroed := setU16 bytes 10 0
    if headerChecksum ≠ cksum (zeroed.take (4 * ipHl bytes)) then (st, [])
    else
      let restored := setU16 zeroed 10 headerChecksum
      if ipV restored ≠ 4 then (st, [])
      else ipDispatch rt ifl st restored iface res
  else (st, [])

/-- linkHandleReceivedArpPacket of sr_router.c: validate the ARP fields; a
request for our interface IP is answered with an ARP reply; a reply for our
interface IP inserts the binding and drains any pending request, overwriting
each queued frame destination MAC with the learned one. -/
def linkHandleReceivedArpPacket (st : RouterState) (packet : ArpHdr) (len : Nat)
    (iface : sr_if) : RouterState × List Emission :=
  if len < 28 then (st, [])
  else if ntohs packet.ar_pro ≠ 2048 ∨ ntohs packet.ar_hrd ≠ 1
      ∨ packet.ar_pln ≠ 4 ∨ packet.ar_hln ≠ 6 then (st, [])
  else if ntohs packet.ar_op = 1 then
    if packet.ar_tip = iface.ip then
      (st, [⟨⟨packet.ar_sha, iface.addr, htons 2054,
        EthPayload.arp ⟨htons 1, htons 2048, 6, 4, htons 2, iface.addr, iface.ip,
          packet.ar_sha, packet.ar_sip⟩⟩, 42, iface.name⟩])
    else (st, [])
  else if ntohs packet.ar_op = 2 then
    if packet.ar_tip = iface.ip then
      let pair := sr_arpcache_insert st packet.ar_sha (ntohl packet.ar_sip)
      match pair.2 with
      | some requestPointer =>
        (pair.1, requestPointer.packets.map (fun cur =>
          ⟨⟨packet.ar_sha, cur.shost, cur.ether_type, EthPayload.ip cur.payload⟩,
           cur.len, cur.iface⟩))
      | none => (pair.1, [])
    else (st, [])
  else (st, [])

/-- Default emission used only as a headD fallback in concrete statements. -/
def defaultEmission : Emission := ⟨⟨[], [], 0, EthPayload.ip []⟩, 0, ""⟩

/-- IP payload bytes of an emitted frame (empty for an ARP frame). -/
def emittedIpBytes (e : Emission) : List Nat :=
  match e.frame.payload with
  | EthPayload.ip q => q
  | EthPayload.arp _ => []

/-- Claim C1 input: a default-free table holding a slash-8 route first and a
slash-24 route second, both matching destination 0.0.0.0. -/
def c1routeSlash8 : sr_rt := ⟨0, ipv4 10 0 0 254, ipv4 255 0 0 0, "eth0"⟩

/-- Claim C1 input: the slash-24 route registered second. -/
def c1routeSlash24 : sr_rt := ⟨0, ipv4 10 0 0 253, ipv4 255 255 255 0, "eth1"⟩

/-- Claim C1 routing table. -/
def c1table : List sr_rt := [c1routeSlash8, c1routeSlash24]

/-- Claim C2 offending datagram: 28 bytes, TTL 1, protocol 17, source
10.0.0.1 (the router interface IP), destination 10.0.0.99, valid checksum. -/
def c2pkt : List Nat :=
  [69, 0, 0, 28, 0, 0, 0, 0, 1, 17, 165, 110, 10, 0, 0, 1, 10, 0, 0, 99,
   0, 0, 0, 0, 0, 0, 0, 0]

/-- Claim C2 receiving interface with IP 10.0.0.1. -/
def c2iface : sr_if := ⟨"eth0", [170, 0, 0, 0, 0, 1], ipv4 10 0 0 1⟩

/-- Claim C2 interface list. -/
def c2ifl : List sr_if := [c2iface]

/-- Claim C2 routing table: one entry out of eth0 via gateway 10.0.0.254. -/
def c2rt : List sr_rt := [⟨0, ipv4 10 0 0 254, 0, "eth0"⟩]

/-- Claim C2 router state: the gateway MAC is already in the ARP cache. -/
def c2st : RouterState :=
  ⟨0, [⟨ntohl (ipv4 10 0 0 254), [204, 0, 0, 0, 0, 254]⟩], []⟩

/-- Zero allocator residue. -/
def residue0 : Residue := ⟨0, 0⟩

/-- Claim C8 received ARP request: sender bb:00:00:00:00:02 / 10.0.0.2
asking for 10.0.0.1. -/
def c8packet : ArpHdr :=
  ⟨htons 1, htons 2048, 6, 4, htons 1, [187, 0, 0, 0, 0, 2], ipv4 10 0 0 2,
   zeroMac, ipv4 10 0 0 1⟩

/-- Claim C8 receiving interface aa:00:00:00:00:01 / 10.0.0.1. -/
def c8iface : sr_if := ⟨"eth0", [170, 0, 0, 0, 0, 1], ipv4 10 0 0 1⟩

/-- Claim C8 router state. -/
def c8st : RouterState := ⟨0, [], []⟩

/-- ARP target protocol address of an emitted frame (0 for an IP frame). -/
def emittedArpTarget (e : Emission) : Nat :=
  match e.frame.payload with
  | EthPayload.arp h => h.ar_tip
  | EthPayload.ip _ => 0

/-- Claim C3 first routing entry: default route out of eth0 via 10.0.0.254. -/
def c3r0 : sr_rt := ⟨0, ipv4 10 0 0 254, 0, "eth0"⟩

/-- Claim C3 second routing entry: host route for 192.168.1.9 out of eth0
via the different gateway 10.0.0.253; selected by longest prefix match. -/
def c3r1 : sr_rt := ⟨ipv4 192 168 1 9, ipv4 10 0 0 253, ipv4 255 255 255 255, "eth0"⟩

/-- Claim C3 routing table. -/
def c3rt : List sr_rt := [c3r0, c3r1]

/-- Claim C3 egress interface. -/
def c3eth0 : sr_if := ⟨"eth0", [170, 0, 0, 0, 0, 1], ipv4 10 0 0 1⟩

/-- Claim C3 receiving interface. -/
def c3eth1 : sr_if := ⟨"eth1", [170, 0, 0, 0, 0, 2], ipv4 10 0 1 1⟩

/-- Claim C3 interface list. -/
def c3ifl : List sr_if := [c3eth0, c3eth1]

/-- Claim C3 received datagram: src 172.16.0.5, dst 192.168.1.9, TTL 64. -/
def c3pkt : List Nat := [69, 0, 0, 20, 0, 0, 0, 0, 64, 17, 13, 19, 172, 16, 0, 5, 192, 168, 1, 9]

/-- Claim C3 router state: empty cache, no pending requests. -/
def c3st : RouterState := ⟨0, [], []⟩

/-- Claim C4 routing table: default routes out of eth0 and eth1. -/
def c4rt : List sr_rt :=
  [⟨0, ipv4 10 0 0 254, 0, "eth0"⟩, ⟨0, ipv4 10 0 1 254, 0, "eth1"⟩]

/-- Claim C4 egress interface. -/
def c4eth0 : sr_if := ⟨"eth0", [170, 0, 0, 0, 0, 1], ipv4 10 0 0 1⟩

/-- Claim C4 receiving interface. -/
def c4eth1 : sr_if := ⟨"eth1", [170, 0, 0, 0, 0, 2], ipv4 10 0 1 1⟩

/-- Claim C4 interface list. -/
def c4ifl : List sr_if := [c4eth0, c4eth1]

/-- Claim C4 state: both gateways already resolved in the ARP cache. -/
def c4st : RouterState :=
  ⟨0, [⟨ntohl (ipv4 10 0 0 254), [204, 0, 0, 0, 0, 1]⟩,
       ⟨ntohl (ipv4 10 0 1 254), [204, 0, 0, 0, 0, 2]⟩], []⟩

/-- Claim C4 datagram with TTL 1: src 1.2.3.4, dst 192.168.1.9. -/
def c4pkt1 : List Nat :=
  [69, 0, 0, 28, 0, 0, 0, 0, 1, 17, 244, 26, 1, 2, 3, 4, 192, 168, 1, 9,
   0, 0, 0, 0, 0, 0, 0, 0]

/-- Claim C4 datagram with TTL 2: src 1.2.3.4, dst 192.168.1.9. -/
def c4pkt2 : List Nat :=
  [69, 0, 0, 28, 0, 0, 0, 0, 2, 17, 243, 26, 1, 2, 3, 4, 192, 168, 1, 9,
   0, 0, 0, 0, 0, 0, 0, 0]

/-- Claim C5 offending datagram: src 10.0.0.99 (not ours), dst 10.0.0.77. -/
def c5orig : List Nat :=
  [69, 0, 0, 28, 0, 0, 0, 0, 64, 17, 0, 0, 10, 0, 0, 99, 10, 0, 0, 77,
   1, 2, 3, 4, 5, 6, 7, 8]

/-- Claim C5 egress interface with IP 10.0.0.1. -/
def c5eth0 : sr_if := ⟨"eth0", [170, 0, 0, 0, 0, 1], ipv4 10 0 0 1⟩

/-- Claim C5 interface list. -/
def c5ifl : List sr_if := [c5eth0]

/-- Claim C5 routing table: default route toward the original source. -/
def c5rt : List sr_rt := [⟨0, ipv4 10 0 0 254, 0, "eth0"⟩]

/-- Claim C5 state with the gateway resolved in the ARP cache. -/
def c5st : RouterState := ⟨0, [⟨ntohl (ipv4 10 0 0 254), [204, 0, 0, 0, 0, 254]⟩], []⟩

/-- Claim C5 allocator residue: nonzero contents in the unwritten words. -/
def c5res : Residue := ⟨1, 2⟩

/-- Claim C5 emitted frame. -/
def c5emission : Emission :=
  (NetworkSendTypeThreeIcmpPacket c5rt c5ifl c5st 3 c5orig c5res).2.headD defaultEmission

/-- Claim C6 counterexample request: IHL 6 (one option word), 32 bytes,
echo request to the router IP 10.0.0.1, valid IP and ICMP checksums. -/
def c6pkt : List Nat :=
  [70, 0, 0, 32, 0, 0, 0, 0, 64, 1, 101, 219, 10, 0, 0, 2, 10, 0, 0, 1,
   0, 0, 0, 0, 8, 0, 247, 247, 0, 7, 0, 1]

/-- Claim C6 receiving interface. -/
def c6iface : sr_if := ⟨"eth0", [170, 0, 0, 0, 0, 1], ipv4 10 0 0 1⟩

/-- Claim C6 interface list. -/
def c6ifl : List sr_if := [c6iface]

/-- Claim C6 routing table. -/
def c6rt : List sr_rt := [⟨0, ipv4 10 0 0 254, 0, "eth0"⟩]

/-- Claim C6 state with the gateway resolved in the ARP cache. -/
def c6st : RouterState := ⟨0, [⟨ntohl (ipv4 10 0 0 254), [204, 0, 0, 0, 0, 254]⟩], []⟩

/-- Claim C6 witness request: IHL 5, 31 bytes, echo request with payload
abc to the router IP 10.0.0.1, valid IP and ICMP checksums. -/
def c6wpkt : List Nat :=
  [69, 0, 0, 31, 0, 0, 0, 0, 64, 1, 102, 220, 10, 0, 0, 2, 10, 0, 0, 1,
   8, 0, 51, 149, 0, 7, 0, 1, 97, 98, 99]

/-- Claim C7 learned sender MAC. -/
def c7sha : Mac := [204, 0, 0, 0, 0, 254]

/-- Claim C7 received ARP reply: sender 10.0.0.254, target 10.0.0.1. -/
def c7packet : ArpHdr :=
  ⟨htons 1, htons 2048, 6, 4, htons 2, c7sha, ipv4 10 0 0 254,
   [170, 0, 0, 0, 0, 1], ipv4 10 0 0 1⟩

/-- Claim C7 receiving interface. -/
def c7iface : sr_if := ⟨"eth0", [170, 0, 0, 0, 0, 1], ipv4 10 0 0 1⟩

/-- Claim C7 first queued frame. -/
def c7qp1 : QueuedPacket := ⟨[170, 0, 0, 0, 0, 1], htons 2048, [1, 2, 3], 17, "eth0"⟩

/-- Claim C7 second queued frame. -/
def c7qp2 : QueuedPacket := ⟨[170, 0, 0, 0, 0, 1], htons 2048, [4, 5, 6], 17, "eth0"⟩

/-- Claim C7 pending ARP request for the reply sender IP. -/
def c7req : ArpReq := ⟨ntohl (ipv4 10 0 0 254), 1, [c7qp1, c7qp2], "eth0"⟩

/-- Claim C7 router state holding the pending request. -/
def c7st : RouterState := ⟨0, [], [c7req]⟩

/-- Claim C9 truncated packet: 3 bytes, below the 20-byte minimum. -/
def c9bad : List Nat := [69, 0, 0]

/-- Claim C9 valid packet: src 10.0.0.2, dst 10.0.0.99, TTL 64. -/
def c9good : List Nat :=
  [69, 0, 0, 20, 0, 0, 0, 0, 64, 17, 102, 117, 10, 0, 0, 2, 10, 0, 0, 99]

/-- Claim C9 interface. -/
def c9iface : sr_if := ⟨"eth0", [170, 0, 0, 0, 0, 1], ipv4 10 0 0 1⟩

/-- Claim C9 router state. -/
def c9st : RouterState := ⟨0, [], []⟩

/-- Claim C10 datagram with TTL 0: src 1.2.3.4, dst 192.168.1.9. -/
def c10pkt : List Nat :=
  [69, 0, 0, 28, 0, 0, 0, 0, 0, 17, 245, 26, 1, 2, 3, 4, 192, 168, 1, 9,
   0, 0, 0, 0, 0, 0, 0, 0]

/-- Claim C10 routing table: default route out of eth0. -/
def c10rt : List sr_rt := [⟨0, ipv4 10 0 0 254, 0, "eth0"⟩]

/-- Claim C10 egress interface. -/
def c10eth0 : sr_if := ⟨"eth0", [170, 0, 0, 0, 0, 1], ipv4 10 0 0 1⟩

/-- Claim C10 receiving interface. -/
def c10eth1 : sr_if := ⟨"eth1", [170, 0, 0, 0, 0, 2], ipv4 10 0 1 1⟩

/-- Claim C10 interface list. -/
def c10ifl : List sr_if := [c10eth0, c10eth1]

/-- Claim C10 state with the gateway resolved in the ARP cache. -/
def c10st : RouterState := ⟨0, [⟨ntohl (ipv4 10 0 0 254), [204, 0, 0, 0, 0, 1]⟩], []⟩

/-! ## Helper lemmas -/

lemma set_getD_self : ∀ (l : List Nat) (i : Nat), i < l.length →
    l.set i (l.getD i 0) = l
  | [], _, h => by simp at h
  | _ :: _, 0, _ => by simp [List.getD]
  | a :: l, i + 1, h => by
    simp only [List.set, List.getD_cons_succ]
    rw [set_getD_self l i (by simpa using h)]

lemma getD_set_ne (l : List Nat) {i j : Nat} (v : Nat) (h : i ≠ j) :
    (l.set i v).getD j 0 = l.getD j 0 := by
  simp [List.getD_eq_getElem?_getD, List.getElem?_set_ne h]

lemma getD_set_self (l : List Nat) {i : Nat} (v : Nat) (h : i < l.length) :
    (l.set i v).getD i 0 = v := by
  simp [List.getD_eq_getElem?_getD, List.getElem?_set_self h]

/-- Zeroing the checksum field and then writing back the stored checksum value
is the identity on a received buffer of byte values. -/
lemma setU16_restore (l : List Nat) (h12 : 12 ≤ l.length)
    (h10 : l.getD 10 0 < 256) (h11 : l.getD 11 0 < 256) :
    setU16 (setU16 l 10 0) 10 (getU16 l 10) = l := by
  have key : getU16 l 10 = l.getD 10 0 + 256 * l.getD 11 0 := rfl
  have e10 : getU16 l 10 % 256 = l.getD 10 0 := by omega
  have e11 : getU16 l 10 / 256 % 256 = l.getD 11 0 := by omega
  show ((((l.set 10 (0 % 256)).set 11 (0 / 256 % 256)).set 10 (getU16 l 10 % 256)).set 11
    (getU16 l 10 / 256 % 256)) = l
  rw [e10, e11, (rfl : (0:Nat) % 256 = 0), (rfl : (0:Nat) / 256 % 256 = 0)]
  rw [List.set_comm _ _ _ (by omega : (11:Nat) ≠ 10), List.set_set, List.set_set]
  rw [set_getD_self l 10 (by omega)]
  rw [set_getD_self l 11 (by omega)]

/-! ## Claim theorems -/

/-- C1: route selection is claimed to pick the route with the greatest count
of contiguous high mask bits AFTER converting the mask to host byte order.
The code computes the mask length on the raw network-byte-order mask, so on
the little-endian target both the slash-8 and the slash-24 mask score zero
and the first registered route wins: the code returns the slash-8 route for
destination 0.0.0.0 although the matching slash-24 route has the greater
host-byte-order mask length, which the claim requires to win. -/
theorem c1_route_lpm_byte_order_bug :
    networkGetPacketRoute c1table 0 = some c1routeSlash8 ∧
    routeSpecLpm c1table 0 = some c1routeSlash24 ∧
    networkGetMaskLength (ntohl c1routeSlash8.mask) <
      networkGetMaskLength (ntohl c1routeSlash24.mask) ∧
    c1routeSlash8 ≠ c1routeSlash24 := by decide

/-- C2 counterexample: a received datagram with TTL 1, a non-local
destination and source IP equal to the router interface IP still produces an
emitted frame, and that frame is an ICMP Time Exceeded (type byte 11 at
offset 20 of the emitted IP datagram): the time-exceeded path has no
self-source suppression, so the claim is false for Time Exceeded. -/
theorem c2_time_exceeded_not_suppressed :
    networkIpSourceIsUs c2ifl c2pkt = true ∧
    (networkHandleReceivedIpPacket c2rt c2ifl c2st c2pkt c2iface residue0).2.length = 1 ∧
    (emittedIpBytes
      ((networkHandleReceivedIpPacket c2rt c2ifl c2st c2pkt c2iface residue0).2.headD
        defaultEmission)).getD 20 0 = 11 := by decide

/-- C2 amended: the suppression holds exactly for the ICMP type 3 path (Host
Unreachable and Port Unreachable): when the offending datagram source IP
equals the IP of any router interface, NetworkSendTypeThreeIcmpPacket
returns with no state change and no emission. -/
theorem c2_type3_self_suppressed (rt : List sr_rt) (ifl : List sr_if)
    (st : RouterState) (code : Nat) (orig : List Nat) (res : Residue)
    (h : networkIpSourceIsUs ifl orig = true) :
    NetworkSendTypeThreeIcmpPacket rt ifl st code orig res = (st, []) := by
  unfold NetworkSendTypeThreeIcmpPacket
  rw [if_pos h]

/-- C2 witness: the suppression theorem applied to the concrete C2 setup on
the host-unreachable code. -/
theorem c2_type3_self_suppressed_witness :
    networkIpSourceIsUs c2ifl c2pkt = true ∧
    NetworkSendTypeThreeIcmpPacket c2rt c2ifl c2st 1 c2pkt residue0 = (c2st, []) :=
  ⟨by decide, c2_type3_self_suppressed c2rt c2ifl c2st 1 c2pkt residue0 (by decide)⟩

/-- C8: a valid ARP request whose target IP is the receiving interface IP is
answered, with unchanged router state, by exactly one ARP reply on that
interface, addressed to the requester MAC, with opcode 2, sender hardware
and protocol addresses equal to the interface MAC and IP and target
hardware and protocol addresses equal to the requester MAC and IP. -/
theorem c8_arp_request_reply (st : RouterState) (p : ArpHdr) (len : Nat)
    (iface : sr_if) (hlen : ¬ len < 28) (hpro : ntohs p.ar_pro = 2048)
    (hhrd : ntohs p.ar_hrd = 1) (hpln : p.ar_pln = 4) (hhln : p.ar_hln = 6)
    (hop : ntohs p.ar_op = 1) (htip : p.ar_tip = iface.ip) :
    linkHandleReceivedArpPacket st p len iface =
      (st, [⟨⟨p.ar_sha, iface.addr, htons 2054,
        EthPayload.arp ⟨htons 1, htons 2048, 6, 4, htons 2, iface.addr, iface.ip,
          p.ar_sha, p.ar_sip⟩⟩, 42, iface.name⟩]) := by
  unfold linkHandleReceivedArpPacket
  rw [if_neg hlen, if_neg (by simp [hpro, hhrd, hpln, hhln]), if_pos hop, if_pos htip]

/-- C8 witness: the reply theorem applied to the concrete request of scenario
S1 of the specification. -/
theorem c8_arp_request_reply_witness :
    linkHandleReceivedArpPacket c8st c8packet 28 c8iface =
      (c8st, [⟨⟨c8packet.ar_sha, c8iface.addr, htons 2054,
        EthPayload.arp ⟨htons 1, htons 2048, 6, 4, htons 2, c8iface.addr, c8iface.ip,
          c8packet.ar_sha, c8packet.ar_sip⟩⟩, 42, c8iface.name⟩]) :=
  c8_arp_request_reply c8st c8packet 28 c8iface (by decide) (by decide) (by decide)
    (by decide) (by decide) (by decide) (by decide)

lemma getD_lt256 (l : List Nat) (hb : ∀ b ∈ l, b < 256) (i : Nat) :
    l.getD i 0 < 256 := by
  rw [List.getD_eq_getElem?_getD]
  cases h : l[i]? with
  | none => simp
  | some a =>
    have : a ∈ l := List.getElem?_mem h
    simpa using hb a this

lemma setU16_getD_ne (l : List Nat) (i v j : Nat) (h1 : i ≠ j) (h2 : i + 1 ≠ j) :
    (setU16 l i v).getD j 0 = l.getD j 0 := by
  unfold setU16
  rw [getD_set_ne _ _ h2, getD_set_ne _ _ h1]

/-- Writing back the received checksum value after the zeroed verification is
the identity on the received buffer. -/
lemma restore_received (bytes : List Nat) (h12 : 12 ≤ bytes.length)
    (hb : ∀ b ∈ bytes, b < 256) :
    setU16 (setU16 bytes 10 0) 10 (ipSum bytes) = bytes :=
  setU16_restore bytes h12 (getD_lt256 bytes hb 10) (getD_lt256 bytes hb 11)

lemma ipV_setU16_10 (l : List Nat) (v : Nat) : ipV (setU16 l 10 v) = ipV l := by
  unfold ipV
  rw [setU16_getD_ne _ _ _ _ (by omega) (by omega)]

/-- Validation-passing received packets are dispatched on the as-received
bytes, the checksum field having been restored in place. -/
lemma handle_ip_valid (rt : List sr_rt) (ifl : List sr_if) (st : RouterState)
    (bytes : List Nat) (iface : sr_if) (res : Residue)
    (h20 : ¬ bytes.length < 20) (h5 : 5 ≤ ipHl bytes)
    (hsum : ipSum bytes = cksum ((setU16 bytes 10 0).take (4 * ipHl bytes)))
    (hv : ipV bytes = 4) (hb : ∀ b ∈ bytes, b < 256) :
    networkHandleReceivedIpPacket rt ifl st bytes iface res =
      ipDispatch rt ifl st bytes iface res := by
  unfold networkHandleReceivedIpPacket
  rw [if_neg h20, if_pos h5, if_neg (by simp [hsum])]
  rw [restore_received bytes (by omega) hb]
  rw [if_neg (by simp [hv])]

lemma arpreq_find_filter_none : ∀ (l : List ArpReq) (ip : Nat),
    (l.filter (fun r => r.ip != ip)).find? (fun r => r.ip == ip) = none
  | [], _ => rfl
  | r :: l, ip => by
    by_cases h : r.ip = ip
    · simp only [List.filter_cons, h]
      simp only [bne_self_eq_false, Bool.false_eq_true, if_false]
      exact arpreq_find_filter_none l ip
    · simp only [List.filter_cons, bne_iff_ne, ne_eq, h, not_false_eq_true, if_true]
      rw [List.find?_cons]
      have : (r.ip == ip) = false := by simp [h]
      rw [this]
      exact arpreq_find_filter_none l ip

lemma map_update_of_find_none (l : List ArpReq) (nh : Nat) (g : ArpReq → ArpReq)
    (h : l.find? (fun q => q.ip == nh) = none) :
    l.map (fun r => if r.ip = nh then g r else r) = l := by
  induction l with
  | nil => rfl
  | cons r rest ih =>
    rw [List.find?_cons] at h
    by_cases hr : r.ip = nh
    · simp [hr] at h
    · have hfalse : (r.ip == nh) = false := by simp [hr]
      rw [hfalse] at h
      simp only [List.map_cons, if_neg hr, ih h]

lemma getU32_set_ne (l : List Nat) (k v i : Nat) (h1 : k ≠ i) (h2 : k ≠ i + 1)
    (h3 : k ≠ i + 2) (h4 : k ≠ i + 3) : getU32 (l.set k v) i = getU32 l i := by
  unfold getU32
  rw [getD_set_ne _ _ h1, getD_set_ne _ _ h2, getD_set_ne _ _ h3, getD_set_ne _ _ h4]

lemma getU32_setU16_ne (l : List Nat) (k v i : Nat)
    (h1 : k ≠ i) (h2 : k ≠ i + 1) (h3 : k ≠ i + 2) (h4 : k ≠ i + 3)
    (g1 : k + 1 ≠ i) (g2 : k + 1 ≠ i + 1) (g3 : k + 1 ≠ i + 2) (g4 : k + 1 ≠ i + 3) :
    getU32 (setU16 l k v) i = getU32 l i := by
  unfold setU16
  rw [getU32_set_ne _ _ _ _ g1 g2 g3 g4, getU32_set_ne _ _ _ _ h1 h2 h3 h4]

lemma ipSrc_set8 (l : List Nat) (v : Nat) : ipSrc (l.set 8 v) = ipSrc l :=
  getU32_set_ne l 8 v 12 (by omega) (by omega) (by omega) (by omega)

lemma ipDst_set8 (l : List Nat) (v : Nat) : ipDst (l.set 8 v) = ipDst l :=
  getU32_set_ne l 8 v 16 (by omega) (by omega) (by omega) (by omega)

lemma ipDst_setU16_10 (l : List Nat) (v : Nat) : ipDst (setU16 l 10 v) = ipDst l :=
  getU32_setU16_ne l 10 v 16 (by omega) (by omega) (by omega) (by omega)
    (by omega) (by omega) (by omega) (by omega)

lemma ipHl_set8 (l : List Nat) (v : Nat) : ipHl (l.set 8 v) = ipHl l := by
  unfold ipHl
  rw [getD_set_ne _ _ (by omega : (8:Nat) ≠ 0)]

lemma ipHl_setU16_10 (l : List Nat) (v : Nat) : ipHl (setU16 l 10 v) = ipHl l := by
  unfold ipHl
  rw [setU16_getD_ne _ _ _ _ (by omega) (by omega)]

lemma ipTtl_setU16_10 (l : List Nat) (v : Nat) : ipTtl (setU16 l 10 v) = ipTtl l := by
  unfold ipTtl
  rw [setU16_getD_ne _ _ _ _ (by omega) (by omega)]

lemma length_setU16 (l : List Nat) (i v : Nat) : (setU16 l i v).length = l.length := by
  unfold setU16
  rw [List.length_set, List.length_set]

lemma cksum_lt (bs : List Nat) : cksum bs < 65536 := by
  unfold cksum bswap16
  omega

lemma bswap16_bswap16 (v : Nat) (h : v < 65536) : bswap16 (bswap16 v) = v := by
  unfold bswap16
  have h1 : (v % 256 * 256 + v / 256 % 256) % 256 = v / 256 % 256 := by omega
  have h2 : (v % 256 * 256 + v / 256 % 256) / 256 = v % 256 := by omega
  rw [h1, h2]
  omega

lemma bswap16_lt (v : Nat) : bswap16 v < 65536 := by
  unfold bswap16
  omega

lemma mod16_recompose (v : Nat) : v % 256 + 256 * (v / 256 % 256) = v % 65536 := by
  omega

lemma mod32_recompose (v : Nat) :
    v % 256 + 256 * (v / 256 % 256) + 65536 * (v / 65536 % 256)
      + 16777216 * (v / 16777216 % 256) = v % 4294967296 := by
  omega

lemma getU32_lt (l : List Nat) (hb : ∀ b ∈ l, b < 256) (i : Nat) :
    getU32 l i < 4294967296 := by
  have b1 := getD_lt256 l hb i
  have b2 := getD_lt256 l hb (i + 1)
  have b3 := getD_lt256 l hb (i + 2)
  have b4 := getD_lt256 l hb (i + 3)
  unfold getU32
  omega

lemma finalize_sum (h : IpHdr) : (finalizeIpHdr h).ip_sum = cksum (serializeIpHdr h) := rfl

lemma finalize_len (h : IpHdr) : (finalizeIpHdr h).ip_len = h.ip_len := rfl

lemma finalize_off (h : IpHdr) : (finalizeIpHdr h).ip_off = h.ip_off := rfl

lemma finalize_ttl (h : IpHdr) : (finalizeIpHdr h).ip_ttl = h.ip_ttl := rfl

lemma finalize_p (h : IpHdr) : (finalizeIpHdr h).ip_p = h.ip_p := rfl

lemma finalize_hl (h : IpHdr) : (finalizeIpHdr h).ip_hl = h.ip_hl := rfl

lemma finalize_v (h : IpHdr) : (finalizeIpHdr h).ip_v = h.ip_v := rfl

lemma echoHdr_len (st : RouterState) (bytes : List Nat) :
    (echoReplyHdr st bytes).ip_len = htons (bytes.length % 65536) := rfl

lemma echoHdr_off (st : RouterState) (bytes : List Nat) :
    (echoReplyHdr st bytes).ip_off = htons 16384 := rfl

lemma echoHdr_ttl (st : RouterState) (bytes : List Nat) :
    (echoReplyHdr st bytes).ip_ttl = 64 := rfl

lemma echoHdr_p (st : RouterState) (bytes : List Nat) :
    (echoReplyHdr st bytes).ip_p = 1 := rfl

lemma echoHdr_hl (st : RouterState) (bytes : List Nat) :
    (echoReplyHdr st bytes).ip_hl = 5 := rfl

lemma echoHdr_v (st : RouterState) (bytes : List Nat) :
    (echoReplyHdr st bytes).ip_v = 4 := rfl

lemma reply_getD8 (h : IpHdr) (t : List Nat) :
    (serializeIpHdr h ++ t).getD 8 0 = h.ip_ttl := rfl

lemma reply_getD9 (h : IpHdr) (t : List Nat) :
    (serializeIpHdr h ++ t).getD 9 0 = h.ip_p := rfl

lemma reply_getU16_2 (h : IpHdr) (t : List Nat) :
    getU16 (serializeIpHdr h ++ t) 2 = h.ip_len % 256 + 256 * (h.ip_len / 256 % 256) := rfl

lemma reply_getU16_6 (h : IpHdr) (t : List Nat) :
    getU16 (serializeIpHdr h ++ t) 6 = h.ip_off % 256 + 256 * (h.ip_off / 256 % 256) := rfl

lemma reply_getU16_10 (h : IpHdr) (t : List Nat) :
    getU16 (serializeIpHdr h ++ t) 10 = h.ip_sum % 256 + 256 * (h.ip_sum / 256 % 256) := rfl

lemma reply_getU32_12 (h : IpHdr) (t : List Nat) :
    getU32 (serializeIpHdr h ++ t) 12 = h.ip_src % 256 + 256 * (h.ip_src / 256 % 256)
      + 65536 * (h.ip_src / 65536 % 256) + 16777216 * (h.ip_src / 16777216 % 256) := rfl

lemma reply_getU32_16 (h : IpHdr) (t : List Nat) :
    getU32 (serializeIpHdr h ++ t) 16 = h.ip_dst % 256 + 256 * (h.ip_dst / 256 % 256)
      + 65536 * (h.ip_dst / 65536 % 256) + 16777216 * (h.ip_dst / 16777216 % 256) := rfl

lemma reply_take20 (h : IpHdr) (t : List Nat) :
    (serializeIpHdr h ++ t).take 20 = serializeIpHdr h := rfl

lemma reply_drop20 (h : IpHdr) (t : List Nat) :
    (serializeIpHdr h ++ t).drop 20 = t := rfl

lemma reply_setU16_10 (h : IpHdr) (t : List Nat) (v : Nat) :
    setU16 (serializeIpHdr h ++ t) 10 v = serializeIpHdr {h with ip_sum := v} ++ t := rfl

lemma reply_ipHl (h : IpHdr) (t : List Nat) :
    ipHl (serializeIpHdr h ++ t) = (h.ip_hl + 16 * h.ip_v) % 16 := rfl

lemma reply_length (h : IpHdr) (t : List Nat) :
    (serializeIpHdr h ++ t).length = 20 + t.length := by
  rw [List.length_append]
  rfl

lemma reply_drop28 (h : IpHdr) (s : Nat) (t : List Nat) :
    (serializeIpHdr h ++ ([0, 0] ++ le16 s ++ t)).drop 28 = t.drop 4 := rfl

lemma reply_getU16_22 (h : IpHdr) (t : List Nat) :
    getU16 (serializeIpHdr h ++ t) 22 = getU16 t 2 := rfl

lemma echo_tail_setU16 (s : Nat) (t : List Nat) :
    setU16 ([0, 0] ++ le16 s ++ t) 2 0 = [0, 0, 0, 0] ++ t := rfl

lemma echo_tail_getU16 (s : Nat) (t : List Nat) :
    getU16 ([0, 0] ++ le16 s ++ t) 2 = s % 256 + 256 * (s / 256 % 256) := rfl

/-- C3 counterexample: the datagram for 192.168.1.9 is routed by longest
prefix match onto the host route c3r1 (gateway 10.0.0.253), yet the single
emitted ARP request targets the gateway of c3r0, the FIRST routing entry for
the egress interface name, and the pending request is queued under that same
gateway; the two gateways differ, so the claim is false. -/
theorem c3_arp_target_divergence :
    networkGetPacketRoute c3rt (ipDst c3pkt) = some c3r1 ∧
    (networkHandleReceivedIpPacket c3rt c3ifl c3st c3pkt c3eth1 residue0).2.length = 1 ∧
    emittedArpTarget
      ((networkHandleReceivedIpPacket c3rt c3ifl c3st c3pkt c3eth1 residue0).2.headD
        defaultEmission) = htonl (ntohl c3r0.gw) ∧
    ((networkHandleReceivedIpPacket c3rt c3ifl c3st c3pkt c3eth1 residue0).1.requests.map
      ArpReq.ip) = [ntohl c3r0.gw] ∧
    ntohl c3r0.gw ≠ ntohl c3r1.gw := by decide

/-- C3 amended: the next hop used for the ARP cache lookup and for any ARP
request is the gateway of the FIRST routing-table entry whose interface name
equals the egress interface name, decoded to host byte order: on a cache hit
the frame goes out immediately, on a miss with no pending request the frame
is queued under that gateway and the emitted ARP request broadcasts for it. -/
theorem c3_nexthop_from_interface_entry (rt : List sr_rt) (ifl : List sr_if)
    (st : RouterState) (bytes : List Nat) (recvIface : sr_if) (res : Residue)
    (r : sr_rt) (egress : sr_if) (r0 : sr_rt)
    (hroute : networkGetPacketRoute rt (ipDst bytes) = some r)
    (hne : r.interface ≠ recvIface.name)
    (hif : sr_get_interface ifl r.interface = some egress)
    (hrt0 : sr_get_rt rt egress.name = some r0) :
    (∀ mac, sr_arpcache_lookup st.cache (ntohl r0.gw) = some mac →
      networkForwardIpPacket rt ifl st bytes recvIface res =
        (st, [⟨⟨mac, egress.addr, htons 2048, EthPayload.ip bytes⟩,
          bytes.length + 14, egress.name⟩])) ∧
    (sr_arpcache_lookup st.cache (ntohl r0.gw) = none →
      st.requests.find? (fun q => q.ip == ntohl r0.gw) = none →
      networkForwardIpPacket rt ifl st bytes recvIface res =
        ({st with requests := st.requests ++
            [⟨ntohl r0.gw, 1,
              [⟨egress.addr, htons 2048, bytes, bytes.length + 14, egress.name⟩],
              egress.name⟩]},
         [LinkSendArpRequest egress (ntohl r0.gw)])) := by
  constructor
  · intro mac hhit
    unfold networkForwardIpPacket
    rw [hroute]
    simp only [if_pos hne]
    rw [hif]
    dsimp only
    unfold linkArpAndSendPacket
    rw [hrt0]
    dsimp only
    rw [hhit]
  · intro hmiss hnoreq
    unfold networkForwardIpPacket
    rw [hroute]
    simp only [if_pos hne]
    rw [hif]
    dsimp only
    unfold linkArpAndSendPacket
    rw [hrt0]
    dsimp only
    rw [hmiss]
    unfold sr_arpcache_queuereq
    rw [hnoreq]
    dsimp only
    simp only [List.map_append]
    rw [map_update_of_find_none st.requests (ntohl r0.gw) _ hnoreq]
    simp

/-- C3 witness: the amended next-hop theorem applied to the concrete table of
the counterexample, on its ARP-miss branch. -/
theorem c3_nexthop_from_interface_entry_witness :
    (networkForwardIpPacket c3rt c3ifl c3st c3pkt c3eth1 residue0).2 =
      [LinkSendArpRequest c3eth0 (ntohl c3r0.gw)] ∧
    (networkForwardIpPacket c3rt c3ifl c3st c3pkt c3eth1 residue0).1.requests.map
      ArpReq.ip = [ntohl c3r0.gw] := by
  have h := (c3_nexthop_from_interface_entry c3rt c3ifl c3st c3pkt c3eth1 residue0
    c3r1 c3eth0 c3r0 (by decide) (by decide) (by decide) (by decide)).2
    (by decide) (by decide)
  rw [h]
  exact ⟨rfl, by decide⟩

/-- C4: a validated datagram with a non-local destination and TTL 1 produces
exactly one emitted frame, an ICMP Time Exceeded (type 11 code 0) addressed
back toward the source, quoting the first 28 bytes of the datagram with its
TTL restored to 1, and the datagram itself is not forwarded; with TTL at
least 2 the datagram is forwarded with the TTL field decremented by one and
the header checksum recomputed over the updated header. -/
theorem c4_ttl_handling (rt : List sr_rt) (ifl : List sr_if) (st : RouterState)
    (bytes : List Nat) (iface : sr_if) (res : Residue)
    (h20 : ¬ bytes.length < 20) (h5 : 5 ≤ ipHl bytes)
    (hsum : ipSum bytes = cksum ((setU16 bytes 10 0).take (4 * ipHl bytes)))
    (hv : ipV bytes = 4) (hb : ∀ b ∈ bytes, b < 256)
    (hdst : networkIpDesinationIsUs ifl bytes = false) :
    (∀ rte mac, ipTtl bytes = 1 →
      sr_get_rt rt iface.name = some rte →
      sr_arpcache_lookup st.cache (ntohl rte.gw) = some mac →
      networkHandleReceivedIpPacket rt ifl st bytes iface res =
        ({st with ipIdentifyNumber := (st.ipIdentifyNumber + 1) % 65536},
         [⟨⟨mac, iface.addr, htons 2048, EthPayload.ip
             (serializeIpHdr (finalizeIpHdr
               { ip_v := 4, ip_hl := 5, ip_tos := 0, ip_len := htons 56,
                 ip_id := htons st.ipIdentifyNumber, ip_off := htons 16384,
                 ip_ttl := 64, ip_p := 1, ip_sum := 0, ip_src := iface.ip,
                 ip_dst := ipSrc bytes })
              ++ serializeIcmpT3 (finalizeIcmpT3
               { icmp_type := 11, icmp_code := 0, icmp_sum := 0,
                 unused := res.unused, next_mtu := res.next_mtu,
                 data := (bytes.set 8 1).take 28 }))⟩, 70, iface.name⟩])) ∧
    (∀ r egress r0 mac, 2 ≤ ipTtl bytes → ipTtl bytes ≤ 255 →
      networkGetPacketRoute rt (ipDst bytes) = some r →
      r.interface ≠ iface.name →
      sr_get_interface ifl r.interface = some egress →
      sr_get_rt rt egress.name = some r0 →
      sr_arpcache_lookup st.cache (ntohl r0.gw) = some mac →
      networkHandleReceivedIpPacket rt ifl st bytes iface res =
        (st, [⟨⟨mac, egress.addr, htons 2048, EthPayload.ip
            (setU16 (setU16 (bytes.set 8 (ipTtl bytes - 1)) 10 0) 10
              (cksum ((setU16 (bytes.set 8 (ipTtl bytes - 1)) 10 0).take
                (4 * ipHl bytes))))⟩,
          bytes.length + 14, egress.name⟩]) ∧
      ipTtl (setU16 (setU16 (bytes.set 8 (ipTtl bytes - 1)) 10 0) 10
        (cksum ((setU16 (bytes.set 8 (ipTtl bytes - 1)) 10 0).take
          (4 * ipHl bytes)))) = ipTtl bytes - 1) := by
  constructor
  · intro rte mac ht hrt hhit
    rw [handle_ip_valid rt ifl st bytes iface res h20 h5 hsum hv hb]
    unfold ipDispatch
    rw [hdst]
    rw [if_neg (by simp)]
    dsimp only
    rw [ht, (rfl : (1 + 255) % 256 = (0:Nat)), if_pos rfl]
    rw [List.set_set, ipSrc_set8]
    unfold linkArpAndSendPacket
    rw [hrt]
    dsimp only
    rw [hhit]
  · intro r egress r0 mac ht2 ht255 hroute hne hif hrt0 hhit
    have htt : (ipTtl bytes + 255) % 256 = ipTtl bytes - 1 := by omega
    have hb2ttl : ipTtl (setU16 (setU16 (bytes.set 8 (ipTtl bytes - 1)) 10 0) 10
        (cksum ((setU16 (bytes.set 8 (ipTtl bytes - 1)) 10 0).take
          (4 * ipHl bytes)))) = ipTtl bytes - 1 := by
      rw [ipTtl_setU16_10, ipTtl_setU16_10]
      unfold ipTtl
      exact getD_set_self bytes _ (by omega)
    refine ⟨?_, hb2ttl⟩
    rw [handle_ip_valid rt ifl st bytes iface res h20 h5 hsum hv hb]
    unfold ipDispatch
    rw [hdst]
    rw [if_neg (by simp)]
    dsimp only
    rw [htt, if_neg (by omega : ¬ ipTtl bytes - 1 = 0)]
    rw [ipHl_setU16_10, ipHl_set8]
    unfold networkForwardIpPacket
    rw [ipDst_setU16_10, ipDst_setU16_10, ipDst_set8, hroute]
    dsimp only
    rw [if_pos hne, hif]
    dsimp only
    unfold linkArpAndSendPacket
    rw [hrt0]
    dsimp only
    rw [hhit]
    rw [length_setU16, length_setU16, List.length_set]

/-- C4 witness: the TTL theorem applied to a concrete TTL 1 datagram (one
Time Exceeded frame emitted, ICMP type byte 11) and to a concrete TTL 2
datagram (one forwarded frame emitted, TTL field 1). -/
theorem c4_ttl_handling_witness :
    (networkHandleReceivedIpPacket c4rt c4ifl c4st c4pkt1 c4eth1 residue0).2.length = 1 ∧
    (emittedIpBytes ((networkHandleReceivedIpPacket c4rt c4ifl c4st c4pkt1 c4eth1
      residue0).2.headD defaultEmission)).getD 20 0 = 11 ∧
    (networkHandleReceivedIpPacket c4rt c4ifl c4st c4pkt2 c4eth1 residue0).2.length = 1 ∧
    ipTtl (emittedIpBytes ((networkHandleReceivedIpPacket c4rt c4ifl c4st c4pkt2 c4eth1
      residue0).2.headD defaultEmission)) = 1 := by
  have h1 := (c4_ttl_handling c4rt c4ifl c4st c4pkt1 c4eth1 residue0 (by decide)
    (by decide) (by decide) (by decide) (by decide) (by decide)).1
    ⟨0, ipv4 10 0 1 254, 0, "eth1"⟩ [204, 0, 0, 0, 0, 2] (by decide) (by decide) (by decide)
  have h2 := ((c4_ttl_handling c4rt c4ifl c4st c4pkt2 c4eth1 residue0 (by decide)
    (by decide) (by decide) (by decide) (by decide) (by decide)).2
    ⟨0, ipv4 10 0 0 254, 0, "eth0"⟩ c4eth0 ⟨0, ipv4 10 0 0 254, 0, "eth0"⟩
    [204, 0, 0, 0, 0, 1] (by decide) (by decide) (by decide) (by decide) (by decide)
    (by decide) (by decide)).1
  rw [h1, h2]
  exact ⟨by decide, by decide, by decide, by decide⟩

/-- C5: the concrete emitted destination-unreachable packet carries every
field the claim names, except that the 4 bytes between the ICMP checksum and
the quoted datagram are the allocator residue (here 1 and 2), not zero: the
C code never writes the unused and next_mtu words of the reply. -/
theorem c5_type3_unused_words_not_zeroed :
    (NetworkSendTypeThreeIcmpPacket c5rt c5ifl c5st 3 c5orig c5res).2.length = 1 ∧
    (emittedIpBytes c5emission).getD 0 0 = 69 ∧
    (emittedIpBytes c5emission).getD 1 0 = 0 ∧
    ntohs (getU16 (emittedIpBytes c5emission) 2) = 56 ∧
    getU16 (emittedIpBytes c5emission) 6 = htons 16384 ∧
    (emittedIpBytes c5emission).getD 8 0 = 64 ∧
    (emittedIpBytes c5emission).getD 9 0 = 1 ∧
    getU32 (emittedIpBytes c5emission) 12 = c5eth0.ip ∧
    (emittedIpBytes c5emission).getD 20 0 = 3 ∧
    (emittedIpBytes c5emission).getD 21 0 = 3 ∧
    (emittedIpBytes c5emission).drop 28 = c5orig.take 28 ∧
    ((emittedIpBytes c5emission).drop 24).take 4 = [1, 0, 2, 0] ∧
    ((emittedIpBytes c5emission).drop 24).take 4 ≠ [0, 0, 0, 0] := by decide

/-- C6 counterexample: a 32-byte echo request with one IP option word (IHL 6)
and valid checksums is answered, but the constructed reply holds only 28
bytes of IP datagram while both the transmit length and the reply total
length field claim 32 bytes: the reply is not of identical total length (the
transmission reads 4 bytes past the constructed packet). -/
theorem c6_options_echo_reply_shorter :
    (networkHandleReceivedIpPacket c6rt c6ifl c6st c6pkt c6iface residue0).2.length = 1 ∧
    ((networkHandleReceivedIpPacket c6rt c6ifl c6st c6pkt c6iface residue0).2.headD
      defaultEmission).len = c6pkt.length + 14 ∧
    (emittedIpBytes ((networkHandleReceivedIpPacket c6rt c6ifl c6st c6pkt c6iface
      residue0).2.headD defaultEmission)).length = c6pkt.length - 4 ∧
    ntohs (getU16 (emittedIpBytes ((networkHandleReceivedIpPacket c6rt c6ifl c6st c6pkt
      c6iface residue0).2.headD defaultEmission)) 2) = c6pkt.length ∧
    c6pkt.length - 4 ≠ c6pkt.length := by decide

/-- C6 amended (option-free requests, IHL 5): a valid echo request to a local
IP is answered by exactly one frame whose IP datagram has the length of the
request, the bytes after the 8-byte ICMP header copied verbatim, source and
destination IPs swapped, TTL 64, DF set, protocol ICMP, and IP and ICMP
checksums that verify by the standard zero-field-and-recompute procedure. -/
theorem c6_echo_reply (rt : List sr_rt) (ifl : List sr_if) (st : RouterState)
    (bytes : List Nat) (iface : sr_if) (res : Residue) (rte : sr_rt) (mac : Mac)
    (h28 : 28 ≤ bytes.length) (hlen16 : bytes.length < 65536)
    (hhl : ipHl bytes = 5)
    (hsum : ipSum bytes = cksum ((setU16 bytes 10 0).take (4 * ipHl bytes)))
    (hv : ipV bytes = 4) (hb : ∀ b ∈ bytes, b < 256)
    (hdst : networkIpDesinationIsUs ifl bytes = true)
    (hp : ipP bytes = 1)
    (hicmp : getU16 (bytes.drop 20) 2 = cksum (setU16 (bytes.drop 20) 2 0))
    (htype : (bytes.drop 20).getD 0 0 = 8)
    (hrt : sr_get_rt rt iface.name = some rte)
    (hhit : sr_arpcache_lookup st.cache (ntohl rte.gw) = some mac) :
    networkHandleReceivedIpPacket rt ifl st bytes iface res =
      ({st with ipIdentifyNumber := (st.ipIdentifyNumber + 1) % 65536},
       [⟨⟨mac, iface.addr, htons 2048, EthPayload.ip (echoReplyBytes st bytes)⟩,
         bytes.length + 14, iface.name⟩]) ∧
    (echoReplyBytes st bytes).length = bytes.length ∧
    (echoReplyBytes st bytes).drop 28 = bytes.drop 28 ∧
    getU32 (echoReplyBytes st bytes) 12 = ipDst bytes ∧
    getU32 (echoReplyBytes st bytes) 16 = ipSrc bytes ∧
    (echoReplyBytes st bytes).getD 8 0 = 64 ∧
    getU16 (echoReplyBytes st bytes) 6 = htons 16384 ∧
    (echoReplyBytes st bytes).getD 9 0 = 1 ∧
    ntohs (getU16 (echoReplyBytes st bytes) 2) = bytes.length ∧
    getU16 (echoReplyBytes st bytes) 10 =
      cksum ((setU16 (echoReplyBytes st bytes) 10 0).take
        (4 * ipHl (echoReplyBytes st bytes))) ∧
    getU16 (echoReplyBytes st bytes) 22 =
      cksum (setU16 ((echoReplyBytes st bytes).drop 20) 2 0) := by
  have hd24 : (bytes.drop 20).drop 4 = bytes.drop 24 := by
    rw [List.drop_drop]
  have hER : echoReplyBytes st bytes =
      serializeIpHdr (finalizeIpHdr (echoReplyHdr st bytes))
      ++ ([0, 0] ++ le16 (cksum ([0, 0, 0, 0] ++ bytes.drop 24)) ++ bytes.drop 24) := by
    unfold echoReplyBytes
    rw [hhl, (rfl : (4:Nat) * 5 = 20), hd24]
  refine ⟨?_, ?_, ?_, ?_, ?_, ?_, ?_, ?_, ?_, ?_, ?_⟩
  · rw [handle_ip_valid rt ifl st bytes iface res (by omega) (by omega) hsum hv hb]
    unfold ipDispatch
    rw [hdst, if_pos rfl, if_pos hp]
    unfold networkHandleIcmpPacket
    dsimp only
    rw [hhl, (rfl : (4:Nat) * 5 = 20)]
    rw [if_neg (by simp [hicmp]), if_pos htype]
    unfold linkArpAndSendPacket
    rw [hrt]
    dsimp only
    rw [hhit]
  · rw [hER, reply_length]
    simp only [List.length_append, le16, List.length_cons, List.length_nil,
      List.length_drop]
    omega
  · rw [hER, reply_drop28, List.drop_drop, (rfl : 24 + 4 = 28)]
  · rw [hER, reply_getU32_12, mod32_recompose,
      (rfl : (finalizeIpHdr (echoReplyHdr st bytes)).ip_src = ipDst bytes)]
    exact Nat.mod_eq_of_lt (getU32_lt bytes hb 16)
  · rw [hER, reply_getU32_16, mod32_recompose,
      (rfl : (finalizeIpHdr (echoReplyHdr st bytes)).ip_dst = ipSrc bytes)]
    exact Nat.mod_eq_of_lt (getU32_lt bytes hb 12)
  · rw [hER, reply_getD8, finalize_ttl, echoHdr_ttl]
  · rw [hER, reply_getU16_6, finalize_off, echoHdr_off]
    decide
  · rw [hER, reply_getD9, finalize_p, echoHdr_p]
  · rw [hER, reply_getU16_2, mod16_recompose, finalize_len, echoHdr_len]
    simp only [htons, ntohs]
    rw [Nat.mod_eq_of_lt (bswap16_lt _)]
    rw [bswap16_bswap16 _ (by omega), Nat.mod_eq_of_lt hlen16]
  · rw [hER, reply_getU16_10, mod16_recompose, reply_setU16_10, reply_ipHl]
    rw [finalize_sum, Nat.mod_eq_of_lt (cksum_lt _)]
    rw [finalize_hl, finalize_v, echoHdr_hl, echoHdr_v]
    rw [(rfl : (4 * ((5 + 16 * 4) % 16) : Nat) = 20), reply_take20]
    rfl
  · rw [hER, reply_getU16_22, echo_tail_getU16, mod16_recompose,
      Nat.mod_eq_of_lt (cksum_lt _), reply_drop20, echo_tail_setU16]

/-- C6 witness: the amended echo theorem applied to the 31-byte request of
scenario S2 (payload abc): one frame, full length, payload preserved. -/
theorem c6_echo_reply_witness :
    (networkHandleReceivedIpPacket c6rt c6ifl c6st c6wpkt c6iface residue0).2.length = 1 ∧
    (emittedIpBytes ((networkHandleReceivedIpPacket c6rt c6ifl c6st c6wpkt c6iface
      residue0).2.headD defaultEmission)).length = c6wpkt.length ∧
    (emittedIpBytes ((networkHandleReceivedIpPacket c6rt c6ifl c6st c6wpkt c6iface
      residue0).2.headD defaultEmission)).drop 28 = c6wpkt.drop 28 := by
  have h := c6_echo_reply c6rt c6ifl c6st c6wpkt c6iface residue0
    ⟨0, ipv4 10 0 0 254, 0, "eth0"⟩ [204, 0, 0, 0, 0, 254] (by decide) (by decide)
    (by decide) (by decide) (by decide) (by decide) (by decide) (by decide)
    (by decide) (by decide) (by decide) (by decide)
  rw [h.1]
  exact ⟨by decide, by decide, by decide⟩

/-- C7: a valid ARP reply whose target IP is the receiving interface IP
installs the sender binding in the ARP cache; the pending request for that
IP is detached and every queued frame is emitted in queue order with its
Ethernet destination overwritten by the learned MAC, on its recorded
interface with its recorded length, after which no request for that IP
remains. -/
theorem c7_arp_reply_learns_and_drains (st : RouterState) (p : ArpHdr) (len : Nat)
    (iface : sr_if) (req : ArpReq) (hlen : ¬ len < 28)
    (hpro : ntohs p.ar_pro = 2048) (hhrd : ntohs p.ar_hrd = 1)
    (hpln : p.ar_pln = 4) (hhln : p.ar_hln = 6) (hop : ntohs p.ar_op = 2)
    (htip : p.ar_tip = iface.ip)
    (hreq : st.requests.find? (fun r => r.ip == ntohl p.ar_sip) = some req) :
    linkHandleReceivedArpPacket st p len iface =
      ({st with
          cache := ⟨ntohl p.ar_sip, p.ar_sha⟩ ::
            st.cache.filter (fun e => e.ip != ntohl p.ar_sip),
          requests := st.requests.filter (fun r => r.ip != ntohl p.ar_sip)},
       req.packets.map (fun cur =>
         ⟨⟨p.ar_sha, cur.shost, cur.ether_type, EthPayload.ip cur.payload⟩,
          cur.len, cur.iface⟩)) ∧
    sr_arpcache_lookup
      (⟨ntohl p.ar_sip, p.ar_sha⟩ ::
        st.cache.filter (fun e => e.ip != ntohl p.ar_sip)) (ntohl p.ar_sip) =
      some p.ar_sha ∧
    (st.requests.filter (fun r => r.ip != ntohl p.ar_sip)).find?
      (fun r => r.ip == ntohl p.ar_sip) = none := by
  refine ⟨?_, ?_, arpreq_find_filter_none _ _⟩
  · unfold linkHandleReceivedArpPacket
    rw [if_neg hlen, if_neg (by simp [hpro, hhrd, hpln, hhln]), hop]
    rw [if_neg (by omega : ¬ (2:Nat) = 1), if_pos rfl, if_pos htip]
    unfold sr_arpcache_insert
    rw [hreq]
  · unfold sr_arpcache_lookup
    rw [List.find?_cons]
    simp

/-- C7 witness: the drain theorem applied to a reply resolving a request
with two queued frames: both are sent, and the binding is in the cache. -/
theorem c7_arp_reply_learns_and_drains_witness :
    (linkHandleReceivedArpPacket c7st c7packet 28 c7iface).2 =
      [⟨⟨c7sha, c7qp1.shost, c7qp1.ether_type, EthPayload.ip c7qp1.payload⟩,
        c7qp1.len, c7qp1.iface⟩,
       ⟨⟨c7sha, c7qp2.shost, c7qp2.ether_type, EthPayload.ip c7qp2.payload⟩,
        c7qp2.len, c7qp2.iface⟩] ∧
    sr_arpcache_lookup (linkHandleReceivedArpPacket c7st c7packet 28 c7iface).1.cache
      (ntohl c7packet.ar_sip) = some c7packet.ar_sha := by
  have h := c7_arp_reply_learns_and_drains c7st c7packet 28 c7iface c7req (by decide)
    (by decide) (by decide) (by decide) (by decide) (by decide) (by decide) (by decide)
  rw [h.1]
  exact ⟨by decide, by decide⟩

/-- C9: a received IP packet shorter than 20 bytes, or with a header-length
field below 5, or whose recomputed header checksum differs from the received
checksum field, or whose version is not 4, is dropped with no emission and
no state change; when all four checks pass, dispatch continues on exactly
the as-received bytes, the checksum field having been restored in place
after the zeroed verification. -/
theorem c9_ip_validation (rt : List sr_rt) (ifl : List sr_if) (st : RouterState)
    (bytes : List Nat) (iface : sr_if) (res : Residue) :
    ((bytes.length < 20 ∨ ipHl bytes < 5 ∨
        ipSum bytes ≠ cksum ((setU16 bytes 10 0).take (4 * ipHl bytes)) ∨
        ipV bytes ≠ 4) →
      networkHandleReceivedIpPacket rt ifl st bytes iface res = (st, [])) ∧
    (¬ bytes.length < 20 → 5 ≤ ipHl bytes →
      ipSum bytes = cksum ((setU16 bytes 10 0).take (4 * ipHl bytes)) →
      ipV bytes = 4 → (∀ b ∈ bytes, b < 256) →
      networkHandleReceivedIpPacket rt ifl st bytes iface res =
        ipDispatch rt ifl st bytes iface res) := by
  constructor
  · intro h
    unfold networkHandleReceivedIpPacket
    by_cases h20 : bytes.length < 20
    · rw [if_pos h20]
    rw [if_neg h20]
    by_cases h5 : 5 ≤ ipHl bytes
    · rw [if_pos h5]
      by_cases hsum : ipSum bytes = cksum ((setU16 bytes 10 0).take (4 * ipHl bytes))
      · rw [if_neg (by simp [hsum])]
        have hv4 : ipV bytes ≠ 4 := by
          rcases h with h | h | h | h
          · exact absurd h h20
          · omega
          · exact absurd hsum h
          · exact h
        rw [if_pos (by rw [ipV_setU16_10, ipV_setU16_10]; exact hv4)]
      · rw [if_pos (by simpa using hsum)]
    · rw [if_neg h5]
  · exact fun h20 h5 hsum hv hb => handle_ip_valid rt ifl st bytes iface res h20 h5 hsum hv hb

/-- C9 witness: the validation theorem applied to a 3-byte packet (dropped
with state unchanged) and to a valid 20-byte packet (dispatched as
received). -/
theorem c9_ip_validation_witness :
    networkHandleReceivedIpPacket [] [] c9st c9bad c9iface residue0 = (c9st, []) ∧
    networkHandleReceivedIpPacket [] [] c9st c9good c9iface residue0 =
      ipDispatch [] [] c9st c9good c9iface residue0 :=
  ⟨(c9_ip_validation [] [] c9st c9bad c9iface residue0).1 (Or.inl (by decide)),
   (c9_ip_validation [] [] c9st c9good c9iface residue0).2 (by decide) (by decide)
     (by decide) (by decide) (by decide)⟩

/-- C10: a validated datagram with a non-local destination and TTL 0 is not
answered with Time Exceeded: the 8-bit decrement wraps to 255, so the
datagram is treated as live and forwarded as the only emitted frame, with
its TTL field now 255 and the checksum recomputed. -/
theorem c10_ttl_zero_wraps (rt : List sr_rt) (ifl : List sr_if) (st : RouterState)
    (bytes : List Nat) (iface : sr_if) (res : Residue)
    (h20 : ¬ bytes.length < 20) (h5 : 5 ≤ ipHl bytes)
    (hsum : ipSum bytes = cksum ((setU16 bytes 10 0).take (4 * ipHl bytes)))
    (hv : ipV bytes = 4) (hb : ∀ b ∈ bytes, b < 256)
    (hdst : networkIpDesinationIsUs ifl bytes = false)
    (httl : ipTtl bytes = 0)
    (r : sr_rt) (egress : sr_if) (r0 : sr_rt) (mac : Mac)
    (hroute : networkGetPacketRoute rt (ipDst bytes) = some r)
    (hne : r.interface ≠ iface.name)
    (hif : sr_get_interface ifl r.interface = some egress)
    (hrt0 : sr_get_rt rt egress.name = some r0)
    (hhit : sr_arpcache_lookup st.cache (ntohl r0.gw) = some mac) :
    networkHandleReceivedIpPacket rt ifl st bytes iface res =
      (st, [⟨⟨mac, egress.addr, htons 2048, EthPayload.ip
          (setU16 (setU16 (bytes.set 8 255) 10 0) 10
            (cksum ((setU16 (bytes.set 8 255) 10 0).take (4 * ipHl bytes))))⟩,
        bytes.length + 14, egress.name⟩]) ∧
    ipTtl (setU16 (setU16 (bytes.set 8 255) 10 0) 10
      (cksum ((setU16 (bytes.set 8 255) 10 0).take (4 * ipHl bytes)))) = 255 := by
  have hb2ttl : ipTtl (setU16 (setU16 (bytes.set 8 255) 10 0) 10
      (cksum ((setU16 (bytes.set 8 255) 10 0).take (4 * ipHl bytes)))) = 255 := by
    rw [ipTtl_setU16_10, ipTtl_setU16_10]
    unfold ipTtl
    exact getD_set_self bytes _ (by omega)
  refine ⟨?_, hb2ttl⟩
  rw [handle_ip_valid rt ifl st bytes iface res h20 h5 hsum hv hb]
  unfold ipDispatch
  rw [hdst]
  rw [if_neg (by simp)]
  dsimp only
  rw [httl, (rfl : (0 + 255) % 256 = (255:Nat)), if_neg (by omega : ¬ (255:Nat) = 0)]
  rw [ipHl_setU16_10, ipHl_set8]
  unfold networkForwardIpPacket
  rw [ipDst_setU16_10, ipDst_setU16_10, ipDst_set8, hroute]
  dsimp only
  rw [if_pos hne, hif]
  dsimp only
  unfold linkArpAndSendPacket
  rw [hrt0]
  dsimp only
  rw [hhit]
  rw [length_setU16, length_setU16, List.length_set]

/-- C10 witness: the wrap theorem applied to a concrete datagram received
with TTL 0: one forwarded frame, TTL field 255. -/
theorem c10_ttl_zero_wraps_witness :
    (networkHandleReceivedIpPacket c10rt c10ifl c10st c10pkt c10eth1 residue0).2.length = 1 ∧
    ipTtl (emittedIpBytes ((networkHandleReceivedIpPacket c10rt c10ifl c10st c10pkt
      c10eth1 residue0).2.headD defaultEmission)) = 255 := by
  have h := c10_ttl_zero_wraps c10rt c10ifl c10st c10pkt c10eth1 residue0 (by decide)
    (by decide) (by decide) (by decide) (by decide) (by decide) (by decide)
    ⟨0, ipv4 10 0 0 254, 0, "eth0"⟩ c10eth0 ⟨0, ipv4 10 0 0 254, 0, "eth0"⟩
    [204, 0, 0, 0, 0, 1] (by decide) (by decide) (by decide) (by decide) (by decide)
  rw [h.1]
  exact ⟨by decide, by decide⟩
